import Mathlib

/-!
# Food app frontend — verification of the claimed client-side behaviour

Shallow embedding of the logic-bearing parts of the `food_app_frontend`
repository: the delete/revert countdown gates, the meal store transitions
(upload, revert, delete), the voice-recorder duration cap and silence
auto-stop, the 401 handling of the API client together with the auth
store, and the persisted-state boundary.

Conventions of the embedding:
* JavaScript epoch timestamps (`Date.now()`, parsed `consumed_at` strings)
  are integers counting milliseconds (`Int`).
* JavaScript floating-point arithmetic on elapsed seconds is modelled with
  exact rationals (`ℚ`); the divisions involved (`/ 1000`) and the compared
  constants are exact in `ℚ`.
* Asynchronous service calls are modelled by passing the call's outcome
  (`Except`) as an argument to a pure state transition; the React `setState`
  sequence of a handler is folded into the resulting state.
-/

namespace FoodApp

/-! ## Data model (src/types: `Meal`, `DailyStats`, responses) -/

/-- A logged meal, restricted to the fields the verified logic reads.
`consumed_at` is the parsed epoch-millisecond timestamp; `none` models a
missing (or empty, hence falsy) `consumed_at` string. `total_calories`
is `none` when the field is absent or does not parse as a number. -/
structure Meal where
  id : Int
  consumed_at : Option Int
  meal_type : String
  total_calories : Option ℚ
deriving DecidableEq, Repr

/-- Daily statistics as the store consumes them: the `meals` list may be
absent (the store guards with `?.` and `|| []`); the remaining aggregate
fields ride along unchanged through the transitions we verify. -/
structure DailyStats where
  date : String
  total_calories : ℚ
  meal_count : Nat
  meals : Option (List Meal)
deriving DecidableEq, Repr

/-- Response body of `POST /food/meals/{id}/revert/` and of
`DELETE /food/meals/{id}/delete/` (fields the store reads). -/
structure RevertMealResponse where
  meal_id : Int
  food_items_deleted : Nat
deriving DecidableEq, Repr

/-! ## Delete gate (`canDeleteMeal`, DayTimeline component)

```js
const DELETE_WINDOW_SECONDS = 3 * 60 * 60;
function canDeleteMeal(meal) {
  if (!meal.consumed_at) return false;
  const consumedAt = new Date(meal.consumed_at).getTime();
  const elapsed = (Date.now() - consumedAt) / 1000;
  return elapsed < DELETE_WINDOW_SECONDS;
}
```
-/

/-- Delete window in seconds (3 hours), `DELETE_WINDOW_SECONDS`. -/
def DELETE_WINDOW_SECONDS : ℚ := 3 * 60 * 60

/-- `canDeleteMeal` from the DayTimeline component: `now` is `Date.now()`
in milliseconds. -/
def canDeleteMeal (meal : Meal) (now : Int) : Bool :=
  match meal.consumed_at with
  | none => false
  | some consumedAt => decide ((((now : ℚ) - consumedAt) / 1000) < DELETE_WINDOW_SECONDS)

/-! ## Revert gate (frontend_meal_revert_guide.md)

```js
const REVERT_WINDOW_SECONDS = 20;
const getRemainingTime = () => {
  const elapsed = (Date.now() - mealCreatedAt.getTime()) / 1000;
  return Math.max(0, REVERT_WINDOW_SECONDS - elapsed);
};
const canRevert = () => getRemainingTime() > 0;
```
-/

/-- Revert window in seconds, `REVERT_WINDOW_SECONDS`. -/
def REVERT_WINDOW_SECONDS : ℚ := 20

/-- Remaining revert time in seconds (the value the ticking countdown
displays); `mealCreatedAt` and `now` in epoch milliseconds. -/
def getRemainingTime (mealCreatedAt now : Int) : ℚ :=
  max 0 (REVERT_WINDOW_SECONDS - (((now : ℚ) - mealCreatedAt) / 1000))

/-- `canRevert` from the revert guide: the action is available while the
countdown is positive. -/
def canRevert (mealCreatedAt now : Int) : Bool :=
  decide (getRemainingTime mealCreatedAt now > 0)

/-- Client-side visibility state of the revert action for one meal:
the reference timestamp, and whether the server has already rejected a
revert of this meal as expired. -/
structure RevertUI where
  mealCreatedAt : Int
  serverRejectedExpired : Bool
deriving DecidableEq, Repr

/-- Modelled from the spec: no component under `src/` renders the revert
button (only the store action `revertMeal` and the service call exist);
the spec requires the action to be offered exactly while the local
countdown is positive and to disappear once the server has rejected the
revert as expired, regardless of the local countdown. -/
def revertActionOffered (ui : RevertUI) (now : Int) : Bool :=
  !ui.serverRejectedExpired && canRevert ui.mealCreatedAt now

/-! ## Meal store (src/stores/mealStore.ts)

The store's data/UI state and its transitions. Each async action is
modelled as a pure function of the prior state and the service call's
outcome; the `set`-call sequence of the handler is folded into the
resulting state. The fire-and-forget background `fetchDashboard(true)`
only touches `dashboardData`/`isLoading` when its own response lands and
is not part of these synchronous transitions. -/

/-- The meal store's state (`MealState` of mealStore.ts). `dashboardData`
and the weekly/monthly aggregates are opaque to the verified transitions
and are represented by an opaque handle. -/
structure MealState where
  meals : List Meal
  currentMeal : Option Meal
  dashboardData : Option Int
  dailyStats : Option DailyStats
  isLoading : Bool
  isUploading : Bool
  uploadProgress : Nat
  error : Option String
  successMessage : Option String
deriving DecidableEq, Repr

/-- The store's initial state. -/
def initialMealState : MealState :=
  { meals := [], currentMeal := none, dashboardData := none, dailyStats := none,
    isLoading := false, isUploading := false, uploadProgress := 0,
    error := none, successMessage := none }

/-- The success text of `uploadVoiceRecording`: `Math.round` of the
calories when they parse as a number, a fallback otherwise. -/
def uploadSuccessText (meal : Meal) : String :=
  match meal.total_calories with
  | some c => toString (round c) ++ " calories recorded."
  | none => "Meal recorded."

/-- `uploadVoiceRecording`: resets the upload flags, and on success
prepends the returned meal to `meals`, makes it `currentMeal` and sets the
success message; on failure sets only the upload flags and the error
(`apiError.detail` when present, a fixed fallback otherwise). Returns the
meal (`null` on failure). -/
def uploadVoiceRecording (s : MealState) (result : Except (Option String) Meal) :
    MealState × Option Meal :=
  let s1 : MealState :=
    { s with isUploading := true, uploadProgress := 0, error := none, successMessage := none }
  match result with
  | .ok meal =>
    let s2 : MealState := { s1 with uploadProgress := 30 }
    let s3 : MealState := { s2 with uploadProgress := 100 }
    ({ s3 with
        meals := meal :: s3.meals,
        currentMeal := some meal,
        isUploading := false,
        uploadProgress := 0,
        successMessage := some ("Meal logged! " ++ uploadSuccessText meal) }, some meal)
  | .error detail =>
    ({ s1 with
        isUploading := false,
        uploadProgress := 0,
        error := some (detail.getD "Failed to process voice recording. Please try again.") },
      none)

/-- The list held by `dailyStats.meals`, as the store reads it
(`dailyStats.meals?.… || []`); `[]` when there are no daily stats. -/
def dailyStatsMeals (s : MealState) : List Meal :=
  match s.dailyStats with
  | none => []
  | some d => d.meals.getD []

/-- Success path of `revertMeal` (the service call resolved): the meal is
filtered out of `meals` and `dailyStats.meals`, `currentMeal` is cleared
when it was the reverted meal, and the success message is set. Returns
`true`. -/
def revertMealSuccess (s : MealState) (mealId : Int) (resp : RevertMealResponse) :
    MealState × Bool :=
  ({ s with
      meals := s.meals.filter (fun meal => meal.id ≠ mealId),
      currentMeal :=
        match s.currentMeal with
        | some m => if m.id = mealId then none else some m
        | none => none,
      dailyStats := s.dailyStats.map (fun d =>
        { d with meals := some ((d.meals.getD []).filter (fun meal => meal.id ≠ mealId)) }),
      successMessage := some
        ("Meal undone. " ++ toString resp.food_items_deleted ++ " food items removed.") },
    true)

/-- Failure path of `revertMeal` (the service call threw): only the error
string is set — `apiError.detail` when present, the fixed fallback
otherwise. Returns `false`. -/
def revertMealFailure (s : MealState) (detail : Option String) : MealState × Bool :=
  ({ s with
      error := some (detail.getD "Failed to undo meal. The undo window may have expired.") },
    false)

/-- Success path of `deleteMeal`: identical shape to the revert success
path, with the delete success message. Returns `true`. -/
def deleteMealSuccess (s : MealState) (mealId : Int) (resp : RevertMealResponse) :
    MealState × Bool :=
  ({ s with
      meals := s.meals.filter (fun meal => meal.id ≠ mealId),
      currentMeal :=
        match s.currentMeal with
        | some m => if m.id = mealId then none else some m
        | none => none,
      dailyStats := s.dailyStats.map (fun d =>
        { d with meals := some ((d.meals.getD []).filter (fun meal => meal.id ≠ mealId)) }),
      successMessage := some
        ("Meal deleted. " ++ toString resp.food_items_deleted ++ " food items removed.") },
    true)

/-- Failure path of `deleteMeal`: only the error string is set. Returns
`false`. -/
def deleteMealFailure (s : MealState) (detail : Option String) : MealState × Bool :=
  ({ s with
      error := some (detail.getD "Failed to delete meal. The delete window may have expired.") },
    false)

/-! ## Voice recorder (src/hooks/useVoiceRecorder.ts)

State combines the React `RecordingState` with the refs the handlers
read (`isRecordingRef`, `startTimeRef`, `pausedDurationRef`,
`chunksRef`, the `mediaRecorderRef` presence and the chosen MIME type).
Timestamps are epoch milliseconds. An audio chunk is opaque (`Nat`). -/

/-- Maximum recording duration in seconds (5 minutes),
`MAX_RECORDING_DURATION`. -/
def MAX_RECORDING_DURATION : Int := 5 * 60

/-- Recording mode, `'hold' | 'toggle' | null` (the `Option` is the
`null`). -/
inductive RecMode where
  | hold
  | toggle
deriving DecidableEq, Repr

/-- The audio blob assembled by the `onstop` handler: the collected
chunks and the recorder's MIME type. -/
structure AudioBlob where
  chunks : List Nat
  mime : String
deriving DecidableEq, Repr

/-- Recorder state: the `RecordingState` fields plus the refs. -/
structure RecorderState where
  isRecording : Bool
  isPaused : Bool
  duration : Int
  audioBlob : Option AudioBlob
  error : Option String
  stream : Option Nat
  recordingMode : Option RecMode
  hasMediaRecorder : Bool
  isRecordingRef : Bool
  startTimeRef : Int
  pausedDurationRef : Int
  chunksRef : List Nat
  mimeType : String
deriving DecidableEq, Repr

/-- Errors `getUserMedia` can reject with (`DOMException` names the catch
branch distinguishes, and anything else). -/
inductive MicErr where
  | notAllowed
  | notFound
  | other
deriving DecidableEq, Repr

/-- The fixed user-facing message of the `startRecording` catch branch. -/
def micErrorMessage : MicErr → String
  | .notAllowed => "Microphone access denied. Please allow microphone access and try again."
  | .notFound => "No microphone found. Please connect a microphone and try again."
  | .other => "Failed to access microphone."

/-- MIME type selection (`MediaRecorder.isTypeSupported` probes). -/
def chooseMime (supported : String → Bool) : String :=
  if supported "audio/webm;codecs=opus" then "audio/webm;codecs=opus"
  else if supported "audio/webm" then "audio/webm"
  else "audio/mp4"

/-- `stopRecording`, with the synchronous effects of the recorder's
`onstop` handler folded in (blob assembled from the collected chunks,
`isRecording` cleared, stream tracks stopped): a no-op unless a recorder
exists and `isRecordingRef` is set. -/
def stopRecording (s : RecorderState) : RecorderState :=
  if s.hasMediaRecorder && s.isRecordingRef then
    { s with
        isRecordingRef := false,
        isRecording := false,
        audioBlob := some ⟨s.chunksRef, s.mimeType⟩,
        stream := none }
  else s

/-- The elapsed duration the timer computes:
`Math.floor((Date.now() - startTimeRef) / 1000) + pausedDurationRef`
(`Int.fdiv` is `Math.floor` of the exact quotient). -/
def elapsedAt (s : RecorderState) (now : Int) : Int :=
  (now - s.startTimeRef).fdiv 1000 + s.pausedDurationRef

/-- `updateDuration`, one tick of the 1 s duration timer: a no-op while
paused; at or past the maximum it stops the recording, otherwise it
publishes the elapsed duration. -/
def updateDuration (s : RecorderState) (now : Int) : RecorderState :=
  if s.isPaused then s
  else if elapsedAt s now ≥ MAX_RECORDING_DURATION then stopRecording s
  else { s with duration := elapsedAt s now }

/-- `startRecording`: resets the recording state, then either surfaces
the microphone failure as a fixed message (catch branch) or wires up the
recorder and starts it. `mic` is the settled `getUserMedia` outcome,
`now` the start timestamp, `supported` the browser's MIME support. -/
def startRecording (s : RecorderState) (mode : Option RecMode) (now : Int)
    (supported : String → Bool) (mic : Except MicErr Nat) : RecorderState :=
  let s0 : RecorderState :=
    { s with
        isRecording := false, isPaused := false, duration := 0, audioBlob := none,
        error := none, stream := none, recordingMode := mode,
        chunksRef := [], pausedDurationRef := 0 }
  match mic with
  | .error e => { s0 with error := some (micErrorMessage e) }
  | .ok stream =>
    { s0 with
        mimeType := chooseMime supported,
        hasMediaRecorder := true,
        startTimeRef := now,
        isRecordingRef := true,
        isRecording := true,
        stream := some stream }

/-- `getAudioFile`: `null` without a blob, otherwise a file named from
the timestamp with the extension derived from the blob's MIME type. -/
def getAudioFile (s : RecorderState) (now : Int) : Option (String × AudioBlob) :=
  match s.audioBlob with
  | none => none
  | some b =>
    let extension := if (b.mime.splitOn "webm").length > 1 then "webm" else "m4a"
    some ("meal_recording_" ++ toString now ++ "." ++ extension, b)

/-! ### Silence auto-stop (toggle mode)

The 100 ms interval body of `startRecording`'s toggle branch, as a step
relation on its closure state (`hasSoundStarted`, `lastSoundTime`) plus
whether it has stopped the recording (once stopped the interval is
cleared, so the stopped state absorbs). The RMS each tick computes from
the analyser buffer is the step's input, as an exact rational. -/

/-- Audio level threshold (`SILENCE_THRESHOLD = 0.02`). -/
def SILENCE_THRESHOLD : ℚ := 2 / 100

/-- Silence duration before auto-stop (`SILENCE_DURATION = 3000` ms). -/
def SILENCE_DURATION : Int := 3000

/-- Closure state of the silence-check interval. At interval creation
`lastSoundTime = Date.now()` and `hasSoundStarted = false`. -/
structure SilenceState where
  hasSoundStarted : Bool
  lastSoundTime : Int
  stopped : Bool
deriving DecidableEq, Repr

/-- The closure state the toggle branch creates at time `start`. -/
def initSilenceState (start : Int) : SilenceState :=
  { hasSoundStarted := false, lastSoundTime := start, stopped := false }

/-- One tick of the silence-check interval at time `now` with measured
RMS `rms`. -/
def silenceCheck (st : SilenceState) (now : Int) (rms : ℚ) : SilenceState :=
  if st.stopped then st
  else if rms > SILENCE_THRESHOLD then
    { st with hasSoundStarted := true, lastSoundTime := now }
  else if st.hasSoundStarted ∧ now - st.lastSoundTime ≥ SILENCE_DURATION then
    { st with stopped := true }
  else st

/-- Running the interval over a sequence of `(time, rms)` samples. -/
def silenceRun (st : SilenceState) (samples : List (Int × ℚ)) : SilenceState :=
  samples.foldl (fun s p => silenceCheck s p.1 p.2) st

/-! ## Auth store, API client 401 handling and persisted storage
(src/stores/authStore.ts, src/services/api.ts, src/i18n/index.ts)

Browser local storage is modelled by the three keys the code writes:
`food_app_auth_token` (the raw token, services/api.ts), `food-app-auth`
(the zustand-persisted auth slice, authStore.ts) and `i18nextLng` (the
cached language preference, i18n/index.ts). No other code in the
repository touches `localStorage`, `sessionStorage`, cookies or
IndexedDB. -/

/-- The `User` record of the auth responses. -/
structure AuthUser where
  pk : Int
  email : String
  first_name : String
  last_name : String
deriving DecidableEq, Repr

/-- The auth store's state (`AuthState` plus `successMessage`). -/
structure AuthStoreState where
  user : Option AuthUser
  token : Option String
  isAuthenticated : Bool
  isLoading : Bool
  error : Option String
  successMessage : Option String
deriving DecidableEq, Repr

/-- The auth store's initial state. -/
def initialAuthState : AuthStoreState :=
  { user := none, token := none, isAuthenticated := false, isLoading := false,
    error := none, successMessage := none }

/-- The fields the zustand `persist` middleware writes, per the store's
`partialize` option: `user`, `token` and `isAuthenticated`. -/
structure PersistedAuth where
  user : Option AuthUser
  token : Option String
  isAuthenticated : Bool
deriving DecidableEq, Repr

/-- `partialize` of the auth store: the slice written to the
`food-app-auth` local-storage key on every state change. -/
def persistSlice (s : AuthStoreState) : PersistedAuth :=
  { user := s.user, token := s.token, isAuthenticated := s.isAuthenticated }

/-- Browser local storage, restricted to the keys the application
writes. -/
structure LocalStorage where
  foodAppAuthToken : Option String
  foodAppAuthSlice : Option PersistedAuth
  i18nextLng : Option String
deriving DecidableEq, Repr

/-- `getStoredToken` (services/api.ts). -/
def getStoredToken (st : LocalStorage) : Option String :=
  st.foodAppAuthToken

/-- `storeToken` (services/api.ts). -/
def storeToken (token : String) (st : LocalStorage) : LocalStorage :=
  { st with foodAppAuthToken := some token }

/-- `removeToken` (services/api.ts): removes only the
`food_app_auth_token` key. -/
def removeToken (st : LocalStorage) : LocalStorage :=
  { st with foodAppAuthToken := none }

/-- The response interceptor's error branch (services/api.ts): on a 401
it removes the stored token and navigates to `/login` (the returned flag
records the redirect). All other statuses leave storage untouched. -/
def interceptorOnError (status : Option Nat) (st : LocalStorage) : LocalStorage × Bool :=
  if status = some 401 then (removeToken st, true) else (st, false)

/-- State of the auth store right after the page load that the `/login`
redirect causes: zustand `persist` rehydrates the persisted slice over
the initial state (the remaining fields keep their initial values). -/
def rehydrateAuth (st : LocalStorage) : AuthStoreState :=
  match st.foodAppAuthSlice with
  | none => initialAuthState
  | some p =>
    { initialAuthState with
        user := p.user, token := p.token, isAuthenticated := p.isAuthenticated }

/-- The `persist` middleware's write of the current state. -/
def persistWrite (s : AuthStoreState) (st : LocalStorage) : LocalStorage :=
  { st with foodAppAuthSlice := some (persistSlice s) }

/-- `initializeAuth` (authStore.ts): with no stored token it only clears
`isLoading`; with a stored token it validates it (`validation` is the
settled `AuthService.validateToken()` outcome) and either installs the
user or clears the auth state and the stored token. -/
def initializeAuthAction (storage : LocalStorage) (s : AuthStoreState)
    (validation : Except (Option String) AuthUser) : AuthStoreState × LocalStorage :=
  match getStoredToken storage with
  | none => ({ s with isLoading := false }, storage)
  | some tok =>
    let s1 : AuthStoreState := { s with isLoading := true, token := some tok }
    match validation with
    | .ok u =>
      ({ s1 with user := some u, isAuthenticated := true, isLoading := false, error := none },
        storage)
    | .error _ =>
      ({ s1 with
          user := none, token := none, isAuthenticated := false, isLoading := false,
          error := none },
        removeToken storage)

end FoodApp

namespace FoodApp

/-- Unfolding of the delete gate at a present timestamp. -/
theorem canDeleteMeal_some (meal : Meal) (now t : Int) (h : meal.consumed_at = some t) :
    canDeleteMeal meal now = decide ((((now : ℚ) - t) / 1000) < DELETE_WINDOW_SECONDS) := by
  simp [canDeleteMeal, h]

/-- C1: the delete action is offered iff strictly less than 3 hours
(10,800 s) have elapsed since the meal's creation timestamp (the client
uses `consumed_at` as the creation proxy); with the timestamp missing, or
at or past 3 hours, the gate returns `false` and the button is hidden. -/
theorem delete_gate_three_hour_window (meal : Meal) (now t : Int)
    (h : meal.consumed_at = some t) :
    (canDeleteMeal meal now = true ↔ (((now : ℚ) - t) / 1000) < 10800) ∧
      ((((now : ℚ) - t) / 1000) ≥ 10800 → canDeleteMeal meal now = false) := by
  have hw : DELETE_WINDOW_SECONDS = (10800 : ℚ) := by norm_num [DELETE_WINDOW_SECONDS]
  constructor
  · rw [canDeleteMeal_some meal now t h, hw]
    exact decide_eq_true_iff
  · intro hge
    rw [canDeleteMeal_some meal now t h, hw]
    simpa using not_lt.mpr hge

/-- C1 witness: a meal consumed at epoch 0, checked one hour (3.6e6 ms)
later, is within the window and the gate is open. -/
theorem delete_gate_three_hour_window_witness :
    canDeleteMeal ⟨1, some 0, "lunch", none⟩ 3600000 = true :=
  (delete_gate_three_hour_window ⟨1, some 0, "lunch", none⟩ 3600000 0 rfl).1.mpr (by norm_num)

/-- C2: the revert action is offered iff strictly less than 20 seconds
have elapsed since the reference timestamp (the countdown value is
positive); it is hidden once the countdown reaches zero; and once the
server has rejected the revert as expired it is hidden regardless of the
local countdown. -/
theorem revert_gate_twenty_second_window (ui : RevertUI) (now : Int) :
    (ui.serverRejectedExpired = false →
      (revertActionOffered ui now = true ↔ (((now : ℚ) - ui.mealCreatedAt) / 1000) < 20)) ∧
      (getRemainingTime ui.mealCreatedAt now = 0 → revertActionOffered ui now = false) ∧
      (ui.serverRejectedExpired = true → revertActionOffered ui now = false) := by
  refine ⟨fun hs => ?_, fun hz => ?_, fun hs => ?_⟩
  · rw [revertActionOffered, hs]
    simp only [Bool.not_false, Bool.true_and, canRevert, decide_eq_true_iff]
    rw [getRemainingTime, REVERT_WINDOW_SECONDS, gt_iff_lt, lt_max_iff]
    constructor
    · rintro (h | h)
      · exact absurd h (lt_irrefl 0)
      · linarith
    · intro h
      right
      linarith
  · rw [revertActionOffered, canRevert, hz]
    simp
  · rw [revertActionOffered, hs]
    simp

/-- C2 witness: 5 s (5000 ms) after analysis completion, with no server
rejection, the revert action is offered. -/
theorem revert_gate_twenty_second_window_witness :
    revertActionOffered ⟨0, false⟩ 5000 = true :=
  ((revert_gate_twenty_second_window ⟨0, false⟩ 5000).1 rfl).mpr (by norm_num)

/-- Membership in the id-filtered meal list. -/
theorem mem_filter_id (l : List Meal) (mealId : Int) (m : Meal) :
    m ∈ l.filter (fun meal => meal.id ≠ mealId) ↔ (m ∈ l ∧ m.id ≠ mealId) := by
  simp [List.mem_filter]

/-- The `currentMeal` update of the revert/delete success paths. -/
theorem currentMeal_update_iff (c : Option Meal) (mealId : Int) (m : Meal) :
    (match c with
      | some m0 => if m0.id = mealId then none else some m0
      | none => none) = some m ↔ (c = some m ∧ m.id ≠ mealId) := by
  match c with
  | none => simp
  | some m0 =>
    by_cases h : m0.id = mealId <;> simp [h] <;> rintro rfl <;> simp [h]

/-- C3: after a successful revert and after a successful delete, the meal
with the given id is gone from `meals`, from `dailyStats.meals` and from
`currentMeal`; every other meal stays, and `meals` keeps its prior order
(the updated lists are computed in place, with no refetch). -/
theorem meal_removed_from_all_lists (s : MealState) (mealId : Int) (resp : RevertMealResponse) :
    ((∀ m : Meal, m ∈ (revertMealSuccess s mealId resp).1.meals ↔
        (m ∈ s.meals ∧ m.id ≠ mealId)) ∧
      (∀ m : Meal, m ∈ dailyStatsMeals (revertMealSuccess s mealId resp).1 ↔
        (m ∈ dailyStatsMeals s ∧ m.id ≠ mealId)) ∧
      (∀ m : Meal, (revertMealSuccess s mealId resp).1.currentMeal = some m ↔
        (s.currentMeal = some m ∧ m.id ≠ mealId)) ∧
      (revertMealSuccess s mealId resp).1.meals.Sublist s.meals) ∧
    ((∀ m : Meal, m ∈ (deleteMealSuccess s mealId resp).1.meals ↔
        (m ∈ s.meals ∧ m.id ≠ mealId)) ∧
      (∀ m : Meal, m ∈ dailyStatsMeals (deleteMealSuccess s mealId resp).1 ↔
        (m ∈ dailyStatsMeals s ∧ m.id ≠ mealId)) ∧
      (∀ m : Meal, (deleteMealSuccess s mealId resp).1.currentMeal = some m ↔
        (s.currentMeal = some m ∧ m.id ≠ mealId)) ∧
      (deleteMealSuccess s mealId resp).1.meals.Sublist s.meals) := by
  refine ⟨⟨fun m => mem_filter_id _ _ _, fun m => ?_, fun m => currentMeal_update_iff _ _ _,
      List.filter_sublist _⟩,
    ⟨fun m => mem_filter_id _ _ _, fun m => ?_, fun m => currentMeal_update_iff _ _ _,
      List.filter_sublist _⟩⟩ <;>
  · match hs : s.dailyStats with
    | none => simp [revertMealSuccess, deleteMealSuccess, dailyStatsMeals, hs]
    | some d =>
      simp [revertMealSuccess, deleteMealSuccess, dailyStatsMeals, hs, List.mem_filter]

/-- C9: when the revert or the delete service call throws, the store's
data is untouched — `meals`, `currentMeal`, `dailyStats` and
`successMessage` keep their prior values — only `error` is set (to the
thrown `detail` when present, to the fixed fallback otherwise), and the
action returns `false`. -/
theorem store_unchanged_on_failed_revert_delete (s : MealState) (detail : Option String) :
    ((revertMealFailure s detail).1.meals = s.meals ∧
      (revertMealFailure s detail).1.currentMeal = s.currentMeal ∧
      (revertMealFailure s detail).1.dailyStats = s.dailyStats ∧
      (revertMealFailure s detail).1.successMessage = s.successMessage ∧
      (revertMealFailure s detail).1.error =
        some (detail.getD "Failed to undo meal. The undo window may have expired.") ∧
      (revertMealFailure s detail).2 = false) ∧
    ((deleteMealFailure s detail).1.meals = s.meals ∧
      (deleteMealFailure s detail).1.currentMeal = s.currentMeal ∧
      (deleteMealFailure s detail).1.dailyStats = s.dailyStats ∧
      (deleteMealFailure s detail).1.successMessage = s.successMessage ∧
      (deleteMealFailure s detail).1.error =
        some (detail.getD "Failed to delete meal. The delete window may have expired.") ∧
      (deleteMealFailure s detail).2 = false) := by
  refine ⟨⟨rfl, rfl, rfl, rfl, rfl, rfl⟩, ⟨rfl, rfl, rfl, rfl, rfl, rfl⟩⟩

/-- C10: on a successful voice upload, the returned meal becomes the head
of `meals`, every previously held meal follows in its prior order, the
meal becomes `currentMeal`, and the action returns it. -/
theorem upload_prepends_meal (s : MealState) (meal : Meal) :
    (uploadVoiceRecording s (.ok meal)).1.meals.head? = some meal ∧
      (uploadVoiceRecording s (.ok meal)).1.meals.tail = s.meals ∧
      (uploadVoiceRecording s (.ok meal)).1.currentMeal = some meal ∧
      (uploadVoiceRecording s (.ok meal)).2 = some meal := by
  refine ⟨rfl, rfl, rfl, rfl⟩

/-- C4: one tick of the duration timer, while not paused and with a live
recorder: at or past the 5-minute maximum it force-stops the recording
(leaving the published duration at its prior value); below the maximum
it publishes the elapsed duration, which is then strictly below the
maximum — so the timer never publishes a duration that exceeds the cap,
and recording is stopped at the first tick that reaches it. -/
theorem recording_duration_capped (s : RecorderState) (now : Int)
    (hp : s.isPaused = false) (hm : s.hasMediaRecorder = true) (hr : s.isRecordingRef = true) :
    (elapsedAt s now ≥ MAX_RECORDING_DURATION →
      (updateDuration s now).isRecording = false ∧
        (updateDuration s now).isRecordingRef = false ∧
        (updateDuration s now).duration = s.duration) ∧
      (elapsedAt s now < MAX_RECORDING_DURATION →
        (updateDuration s now).duration = elapsedAt s now ∧
          (updateDuration s now).duration < MAX_RECORDING_DURATION) := by
  constructor
  · intro hge
    simp [updateDuration, hp, hge, stopRecording, hm, hr]
  · intro hlt
    rw [updateDuration, if_neg (by simp [hp]), if_neg (not_le.mpr hlt)]
    exact ⟨rfl, hlt⟩

/-- C4 witness: a session started at epoch 0 with no paused time, ticked
at 301 s, is at or past the 5-minute cap and the tick stops it. -/
theorem recording_duration_capped_witness :
    (updateDuration
      { isRecording := true, isPaused := false, duration := 300, audioBlob := none,
        error := none, stream := some 7, recordingMode := some .toggle,
        hasMediaRecorder := true, isRecordingRef := true, startTimeRef := 0,
        pausedDurationRef := 0, chunksRef := [1, 2], mimeType := "audio/webm" }
      301000).isRecording = false :=
  ((recording_duration_capped _ 301000 rfl rfl rfl).1 (by decide)).1

/-- A silence-check tick on leading silence (no sound seen yet, level at
or below the threshold) leaves the closure state untouched. -/
theorem silenceCheck_leading_silence (st : SilenceState) (now : Int) (rms : ℚ)
    (hs : st.hasSoundStarted = false) (hq : rms ≤ SILENCE_THRESHOLD) :
    silenceCheck st now rms = st := by
  rw [silenceCheck]
  by_cases hstop : st.stopped = true
  · simp [hstop]
  · simp only [Bool.not_eq_true] at hstop
    simp [hstop, not_lt.mpr hq, hs]

/-- A run of silence-check ticks none of which exceeds the threshold,
from a state that has seen no sound, neither fires the auto-stop nor
marks the sound as started. -/
theorem silenceRun_leading_silence (samples : List (Int × ℚ)) :
    ∀ st : SilenceState, (∀ p ∈ samples, p.2 ≤ SILENCE_THRESHOLD) →
      st.hasSoundStarted = false → st.stopped = false →
      (silenceRun st samples).stopped = false ∧
        (silenceRun st samples).hasSoundStarted = false := by
  induction samples with
  | nil =>
    intro st _hall hs hstop
    exact ⟨hstop, hs⟩
  | cons p rest ih =>
    intro st hall hs hstop
    rw [silenceRun, List.foldl_cons,
      silenceCheck_leading_silence st p.1 p.2 hs (hall p (List.mem_cons_self p rest))]
    exact ih st (fun q hq => hall q (List.mem_cons_of_mem p hq)) hs hstop

/-- C5: in toggle mode, from any state the auto-stop has not yet fired
in: (a) over any sample sequence that never exceeds the speech
threshold, starting with no speech detected, the auto-stop never fires
(and the signal is still considered unstarted); (b) a tick fires the
auto-stop exactly when the level is at or below the threshold, some
earlier sample has exceeded it (`hasSoundStarted`), and at least the 3 s
quiet period has passed since the last above-threshold sample — whose
time a loud tick records. -/
theorem silence_autostop_spec (st : SilenceState) (now : Int) (rms : ℚ)
    (samples : List (Int × ℚ)) (hstop : st.stopped = false) :
    ((∀ p ∈ samples, p.2 ≤ SILENCE_THRESHOLD) → st.hasSoundStarted = false →
      (silenceRun st samples).stopped = false ∧
        (silenceRun st samples).hasSoundStarted = false) ∧
      ((silenceCheck st now rms).stopped = true ↔
        (rms ≤ SILENCE_THRESHOLD ∧ st.hasSoundStarted = true ∧
          now - st.lastSoundTime ≥ SILENCE_DURATION)) ∧
      (rms > SILENCE_THRESHOLD →
        (silenceCheck st now rms).lastSoundTime = now ∧
          (silenceCheck st now rms).hasSoundStarted = true) := by
  refine ⟨?_, ?_, ?_⟩
  · intro hall hs
    exact silenceRun_leading_silence samples st hall hs hstop
  · rw [silenceCheck]
    simp only [hstop, Bool.false_eq_true, if_false]
    by_cases hloud : rms > SILENCE_THRESHOLD
    · simp only [hloud, if_true]
      constructor
      · intro h
        exact absurd h (by simp [hstop])
      · rintro ⟨hle, -, -⟩
        exact absurd hloud (not_lt.mpr hle)
    · simp only [hloud, if_false]
      by_cases hsil : st.hasSoundStarted = true ∧ now - st.lastSoundTime ≥ SILENCE_DURATION
      · simp [hsil.1, hsil.2, not_lt.mp hloud]
      · rw [if_neg (by exact_mod_cast hsil)]
        simp only [hstop, Bool.false_eq_true, false_iff]
        intro h
        exact hsil ⟨h.2.1, h.2.2⟩
  · intro hloud
    rw [silenceCheck]
    simp [hstop, hloud]

/-- C5 witness: a state that has heard speech, last at time 0, ticked
with a quiet level (RMS 0) at 3000 ms, fires the auto-stop. -/
theorem silence_autostop_spec_witness :
    (silenceCheck ⟨true, 0, false⟩ 3000 0).stopped = true :=
  (silence_autostop_spec ⟨true, 0, false⟩ 3000 0 [] rfl).2.1.mpr
    ⟨by norm_num [SILENCE_THRESHOLD], rfl, by norm_num [SILENCE_DURATION]⟩

/-- C8: when microphone acquisition fails, recording never starts
(`isRecording` is false), no partial recording exists (`audioBlob` is
`null` and `getAudioFile` returns `null`), and the surfaced error is one
of the three fixed user-facing strings, chosen by the failure kind. -/
theorem mic_failure_no_recording (s : RecorderState) (mode : Option RecMode) (now fnow : Int)
    (supported : String → Bool) (e : MicErr) :
    (startRecording s mode now supported (.error e)).isRecording = false ∧
      (startRecording s mode now supported (.error e)).audioBlob = none ∧
      (startRecording s mode now supported (.error e)).error = some (micErrorMessage e) ∧
      (micErrorMessage e =
          "Microphone access denied. Please allow microphone access and try again." ∨
        micErrorMessage e = "No microphone found. Please connect a microphone and try again." ∨
        micErrorMessage e = "Failed to access microphone.") ∧
      getAudioFile (startRecording s mode now supported (.error e)) fnow = none := by
  refine ⟨rfl, rfl, rfl, ?_, rfl⟩
  cases e
  · exact Or.inl rfl
  · exact Or.inr (Or.inl rfl)
  · exact Or.inr (Or.inr rfl)

/-- C6 counterexample: a 401 while a persisted session exists. The
interceptor removes the raw token key and redirects, but the persisted
`food-app-auth` slice is not touched; after the reload the slice is
rehydrated and `initializeAuth`, finding no stored token, returns
without clearing it — the state the UI renders still has
`isAuthenticated = true` and a non-null `user`, contradicting the
claimed transition to the logged-out state. -/
theorem auth_401_stays_authenticated_cex :
    ((interceptorOnError (some 401)
        ⟨some "tok", some ⟨some ⟨1, "user@example.com", "Ada", "L"⟩, some "tok", true⟩,
          some "en"⟩).1.foodAppAuthToken = none) ∧
      ((initializeAuthAction
          (interceptorOnError (some 401)
            ⟨some "tok", some ⟨some ⟨1, "user@example.com", "Ada", "L"⟩, some "tok", true⟩,
              some "en"⟩).1
          (rehydrateAuth
            (interceptorOnError (some 401)
              ⟨some "tok", some ⟨some ⟨1, "user@example.com", "Ada", "L"⟩, some "tok", true⟩,
                some "en"⟩).1)
          (.error none)).1.isAuthenticated = true) ∧
      ((initializeAuthAction
          (interceptorOnError (some 401)
            ⟨some "tok", some ⟨some ⟨1, "user@example.com", "Ada", "L"⟩, some "tok", true⟩,
              some "en"⟩).1
          (rehydrateAuth
            (interceptorOnError (some 401)
              ⟨some "tok", some ⟨some ⟨1, "user@example.com", "Ada", "L"⟩, some "tok", true⟩,
                some "en"⟩).1)
          (.error none)).1.user = some ⟨1, "user@example.com", "Ada", "L"⟩) :=
  ⟨rfl, rfl, rfl⟩

/-- C6 amended: a 401 clears the cached token from storage and redirects
to the login screen, leaving the persisted auth slice in place; the
logged-out transition (`isAuthenticated` false, `user` null, stored
token cleared) is performed by `initializeAuth` only when a stored token
is present and fails validation — when the token is already gone,
`initializeAuth` leaves the rehydrated `isAuthenticated`/`user`
unchanged. -/
theorem auth_401_token_cleared_amended (storage : LocalStorage) (s : AuthStoreState)
    (tok : String) (detail : Option String) (v : Except (Option String) AuthUser) :
    ((interceptorOnError (some 401) storage).1.foodAppAuthToken = none ∧
      (interceptorOnError (some 401) storage).1.foodAppAuthSlice = storage.foodAppAuthSlice ∧
      (interceptorOnError (some 401) storage).2 = true) ∧
      (getStoredToken storage = some tok →
        (initializeAuthAction storage s (.error detail)).1.isAuthenticated = false ∧
          (initializeAuthAction storage s (.error detail)).1.user = none ∧
          (initializeAuthAction storage s (.error detail)).2.foodAppAuthToken = none) ∧
      (getStoredToken storage = none →
        (initializeAuthAction storage s v).1.isAuthenticated = s.isAuthenticated ∧
          (initializeAuthAction storage s v).1.user = s.user) := by
  refine ⟨?_, fun h => ?_, fun h => ?_⟩
  · exact ⟨rfl, rfl, rfl⟩
  · simp [initializeAuthAction, h, removeToken]
  · simp [initializeAuthAction, h]

/-- C6 amended witness: with a stored token that fails validation,
initialization lands in the logged-out state. -/
theorem auth_401_token_cleared_amended_witness :
    (initializeAuthAction ⟨some "tok", none, none⟩ initialAuthState
      (.error none)).1.isAuthenticated = false :=
  ((auth_401_token_cleared_amended ⟨some "tok", none, none⟩ initialAuthState "tok" none
    (.error none)).2.1 rfl).1

/-- C7 counterexample: the zustand-persisted `food-app-auth` slice is
not a function of the token alone — two states with the same token but
different `user` persist differently, and the persisted slice carries
the full user record, which is neither the auth token nor the language
preference. -/
theorem persisted_slice_beyond_token_cex :
    ({ initialAuthState with token := some "tok" } : AuthStoreState).token =
        ({ initialAuthState with
            token := some "tok", user := some ⟨1, "user@example.com", "Ada", "L"⟩,
            isAuthenticated := true } : AuthStoreState).token ∧
      persistSlice { initialAuthState with token := some "tok" } ≠
        persistSlice
          { initialAuthState with
              token := some "tok", user := some ⟨1, "user@example.com", "Ada", "L"⟩,
              isAuthenticated := true } ∧
      (persistSlice
          { initialAuthState with
              token := some "tok", user := some ⟨1, "user@example.com", "Ada", "L"⟩,
              isAuthenticated := true }).user =
        some ⟨1, "user@example.com", "Ada", "L"⟩ := by
  refine ⟨rfl, ?_, rfl⟩
  intro h
  simpa [persistSlice, initialAuthState] using congrArg PersistedAuth.user h

/-- C7 amended: the durable client-side state is exactly the auth token
key, the persisted auth slice consisting of the `user`, `token` and
`isAuthenticated` fields, and the language preference; the volatile
fields (`isLoading`, `error`, `successMessage`) are never persisted —
the written slice depends only on the three persisted fields. -/
theorem persisted_slice_fields_amended (s t : AuthStoreState) :
    ((persistSlice s).user = s.user ∧ (persistSlice s).token = s.token ∧
      (persistSlice s).isAuthenticated = s.isAuthenticated) ∧
      (s.user = t.user → s.token = t.token → s.isAuthenticated = t.isAuthenticated →
        persistSlice s = persistSlice t) := by
  refine ⟨⟨rfl, rfl, rfl⟩, fun h1 h2 h3 => ?_⟩
  simp [persistSlice, h1, h2, h3]

/-- C7 amended witness: two states differing only in the volatile
`error` field persist the same slice. -/
theorem persisted_slice_fields_amended_witness :
    persistSlice { initialAuthState with error := some "x" } = persistSlice initialAuthState :=
  (persisted_slice_fields_amended { initialAuthState with error := some "x" }
    initialAuthState).2 rfl rfl rfl

end FoodApp
